import Mathlib

/-!
# MoviAgent — a verification development

A shallow embedding of the MoviAgent repository (a conversational assistant
over a small relational shuttle-transport dataset) together with theorems
about its operations.

* `src/db.py` — the relational store is modelled as a `DB` record of row
  lists plus AUTOINCREMENT counters; each tool-facing function becomes a
  Lean function from `DB` (and its string arguments) to a result message and
  the successor `DB`.  SQLite `REAL` columns are modelled as `Rat`, nullable
  columns as `Option`.  Python `None` rendering inside f-strings is modelled
  by `pyOptStr`.
* `src/movi_agent.py` — the compiled LangGraph (agent node, tool node,
  `tools_condition` conditional edge) is modelled as the fuelled loop
  `runGraph` over an opaque reasoning capability (the LLM) and an opaque
  per-call dispatcher (the tool node).
* `src/app.py` — `_history_to_graph_messages` is modelled by
  `historyToGraphMessages`.
-/

namespace Movi

/-! ## String helpers (models of the Python string primitives used) -/

/-- Python `str.strip()`: drop whitespace from both ends, modelled on the
character list. -/
def pyStrip (s : String) : String :=
  ⟨((s.data.dropWhile Char.isWhitespace).reverse.dropWhile Char.isWhitespace).reverse⟩

/-- Python `str.lower()`: character-wise lowering. -/
def pyLower (s : String) : String :=
  ⟨s.data.map Char.toLower⟩

/-- `isPrefixL pat l` is true when `pat` is a prefix of `l`. -/
def isPrefixL : List Char → List Char → Bool
  | [], _ => true
  | _ :: _, [] => false
  | a :: as, b :: bs => a == b && isPrefixL as bs

/-- `hasSubL pat l` is true when `pat` occurs contiguously inside `l`. -/
def hasSubL (pat : List Char) : List Char → Bool
  | [] => pat.isEmpty
  | b :: bs => isPrefixL pat (b :: bs) || hasSubL pat bs

/-- Python `pat in s` substring test. -/
def pyIn (pat s : String) : Bool :=
  hasSubL pat.data s.data

/-- Python `s.startswith(pre)`. -/
def pyStartsWith (s pre : String) : Bool :=
  isPrefixL pre.data s.data

/-- `pat` occurs as a contiguous substring of `s`. -/
def ContainsSub (s pat : String) : Prop :=
  ∃ pre post, s = pre ++ pat ++ post

/-- Python `sep.join(xs)`. -/
def joinSep (sep : String) : List String → String
  | [] => ""
  | [x] => x
  | x :: y :: xs => x ++ sep ++ joinSep sep (y :: xs)

/-- Python rendering of an `Optional[str]` inside an f-string: `None` prints
as the four characters `None`. -/
def pyOptStr : Option String → String
  | some s => s
  | none => "None"

/-! ## Data model (`init_db` schema in `src/db.py`) -/

/-- A row of `stops(stop_id, name UNIQUE, latitude, longitude)`. -/
structure StopRow where
  stop_id : Nat
  name : String
  latitude : Option Rat
  longitude : Option Rat
deriving DecidableEq

/-- A row of `paths(path_id, path_name UNIQUE)`. -/
structure PathRow where
  path_id : Nat
  path_name : String
deriving DecidableEq

/-- A row of `path_stops(id, path_id, stop_id, seq)`. -/
structure PathStopRow where
  id : Nat
  path_id : Nat
  stop_id : Nat
  seq : Nat
deriving DecidableEq

/-- A row of `routes(...)`; `status` is `'active'` or `'deactivated'`. -/
structure RouteRow where
  route_id : Nat
  path_id : Nat
  route_display_name : String
  shift_time : String
  direction : String
  start_point : String
  end_point : String
  status : String
deriving DecidableEq

/-- A row of `vehicles(vehicle_id, license_plate UNIQUE, type, capacity)`. -/
structure VehicleRow where
  vehicle_id : Nat
  license_plate : String
  vtype : String
  capacity : Int
deriving DecidableEq

/-- A row of `drivers(driver_id, name UNIQUE, phone_number)`. -/
structure DriverRow where
  driver_id : Nat
  name : String
  phone_number : Option String
deriving DecidableEq

/-- A row of `daily_trips(...)`; `booking_status_percentage REAL DEFAULT 0`
is nullable, hence `Option Rat`. -/
structure TripRow where
  trip_id : Nat
  route_id : Nat
  display_name : String
  booking_status_percentage : Option Rat
  live_status : Option String
deriving DecidableEq

/-- A row of `deployments(deployment_id, trip_id UNIQUE, vehicle_id, driver_id)`. -/
structure DeploymentRow where
  deployment_id : Nat
  trip_id : Nat
  vehicle_id : Option Nat
  driver_id : Option Nat
deriving DecidableEq

/-- The whole SQLite database: one list per table, plus the AUTOINCREMENT
counter of each table (`next_*` is the rowid the next INSERT would take). -/
structure DB where
  stops : List StopRow
  paths : List PathRow
  path_stops : List PathStopRow
  routes : List RouteRow
  vehicles : List VehicleRow
  drivers : List DriverRow
  daily_trips : List TripRow
  deployments : List DeploymentRow
  next_stop_id : Nat
  next_path_id : Nat
  next_path_stop_id : Nat
  next_route_id : Nat
  next_vehicle_id : Nat
  next_driver_id : Nat
  next_trip_id : Nat
  next_deployment_id : Nat
deriving DecidableEq

/-! ## Sorting (model of SQL `ORDER BY`) -/

/-- Insert `x` into `l` before the first element `y` with `¬ le x y`. -/
def insertOrdered (le : α → α → Bool) (x : α) : List α → List α
  | [] => [x]
  | y :: ys => if le x y then x :: y :: ys else y :: insertOrdered le x ys

/-- Insertion sort by `le`; models SQL `ORDER BY`. -/
def orderBy (le : α → α → Bool) : List α → List α
  | [] => []
  | x :: xs => insertOrdered le x (orderBy le xs)

/-! ## Domain-store operations (`src/db.py`) -/

/-- Embedding of `db.create_stop`: `INSERT INTO stops` succeeds unless the
UNIQUE name constraint is violated, in which case the caught
`IntegrityError` becomes the "already exists" message and nothing commits. -/
def create_stop (db : DB) (name : String) (latitude longitude : Option Rat) : String × DB :=
  if db.stops.any (fun s => s.name == name) then
    ("Stop '" ++ name ++ "' already exists.", db)
  else
    ("Created new stop '" ++ name ++ "'.",
     { db with stops := db.stops ++ [⟨db.next_stop_id, name, latitude, longitude⟩],
               next_stop_id := db.next_stop_id + 1 })

/-- The stop-insertion loop of `db.create_path`: for each name, reuse the
stop with that name if one exists, otherwise create it with NULL
coordinates; then append a `path_stops` row at the running `seq`. -/
def addStopsToPath (pid : Nat) : List String → Nat → DB → DB
  | [], _, db => db
  | s_name :: rest, seq, db =>
    match db.stops.find? (fun s => s.name == s_name) with
    | some st =>
        addStopsToPath pid rest (seq + 1)
          { db with path_stops := db.path_stops ++ [⟨db.next_path_stop_id, pid, st.stop_id, seq⟩],
                    next_path_stop_id := db.next_path_stop_id + 1 }
    | none =>
        addStopsToPath pid rest (seq + 1)
          { db with stops := db.stops ++ [⟨db.next_stop_id, s_name, none, none⟩],
                    next_stop_id := db.next_stop_id + 1,
                    path_stops := db.path_stops ++ [⟨db.next_path_stop_id, pid, db.next_stop_id, seq⟩],
                    next_path_stop_id := db.next_path_stop_id + 1 }

/-- Embedding of `db.create_path`.  The empty-list guard comes first; a
UNIQUE violation on the `paths` insert aborts before any stop is touched
(the transaction is rolled back, so the "already exists" branch leaves the
database unchanged). -/
def create_path (db : DB) (path_name : String) (stop_names : List String) : String × DB :=
  if stop_names.isEmpty then
    ("Need at least one stop to create a path.", db)
  else if db.paths.any (fun p => p.path_name == path_name) then
    ("Path '" ++ path_name ++ "' already exists.", db)
  else
    let pid := db.next_path_id
    let db1 : DB := { db with paths := db.paths ++ [⟨pid, path_name⟩], next_path_id := pid + 1 }
    ("Created path '" ++ path_name ++ "' with stops: " ++ joinSep " → " stop_names,
     addStopsToPath pid stop_names 1 db1)

/-- The ordered stop names of a path:
`SELECT s.name FROM path_stops ps JOIN stops s ON s.stop_id = ps.stop_id
WHERE ps.path_id = ? ORDER BY ps.seq ASC` (the inner join drops rows whose
stop is missing). -/
def stopNamesForPathId (db : DB) (pid : Nat) : List String :=
  (orderBy (fun a b => decide (a.seq ≤ b.seq))
      (db.path_stops.filter (fun ps => ps.path_id == pid))).filterMap
    (fun ps => (db.stops.find? (fun s => s.stop_id == ps.stop_id)).map (fun s => s.name))

/-- Embedding of `db.list_stops_for_path`. -/
def list_stops_for_path (db : DB) (path_name : String) : String :=
  match db.paths.find? (fun p => p.path_name == path_name) with
  | none => "Path '" ++ path_name ++ "' not found."
  | some p =>
    let stops := stopNamesForPathId db p.path_id
    if stops.isEmpty then "Path '" ++ path_name ++ "' has no stops configured."
    else "Stops on " ++ path_name ++ ": " ++ joinSep " → " stops

/-- Embedding of `db.create_route`: start/end points are denormalised from
the path's current first/last stop; the new row always carries status
`'active'`; a UNIQUE violation on `route_display_name` becomes the
"already exists" message with no mutation. -/
def create_route (db : DB) (path_name shift_time direction : String) : String × DB :=
  match db.paths.find? (fun p => p.path_name == path_name) with
  | none => ("Path '" ++ path_name ++ "' not found, cannot create route.", db)
  | some p =>
    match stopNamesForPathId db p.path_id with
    | [] => ("Path '" ++ path_name ++ "' has no stops configured, cannot create route.", db)
    | s0 :: srest =>
      let start_point := s0
      let end_point := (s0 :: srest).getLast (by simp)
      let route_display_name := path_name ++ " - " ++ shift_time
      if db.routes.any (fun r => r.route_display_name == route_display_name) then
        ("Route '" ++ route_display_name ++ "' already exists.", db)
      else
        let newRoute : RouteRow :=
          ⟨db.next_route_id, p.path_id, route_display_name, shift_time, direction,
            start_point, end_point, "active"⟩
        ("Created route '" ++ route_display_name ++ "' (" ++ direction ++ ") from " ++
           start_point ++ " to " ++ end_point ++ ".",
         { db with routes := db.routes ++ [newRoute], next_route_id := db.next_route_id + 1 })

/-- One formatted line of `db.list_active_routes`. -/
def fmtActiveRoute (r : RouteRow) : String :=
  "- " ++ r.route_display_name ++ " (" ++ r.direction ++ " @ " ++ r.shift_time ++ ")"

/-- `SELECT ... FROM routes WHERE status = 'active' ORDER BY shift_time`. -/
def activeRouteRows (db : DB) : List RouteRow :=
  orderBy (fun a b => !(decide (b.shift_time < a.shift_time)))
    (db.routes.filter (fun r => r.status == "active"))

/-- The formatted lines of `db.list_active_routes`. -/
def activeRouteLines (db : DB) : List String :=
  (activeRouteRows db).map fmtActiveRoute

/-- Embedding of `db.list_active_routes`. -/
def list_active_routes (db : DB) : String :=
  if (activeRouteRows db).isEmpty then "There are no active routes."
  else "Active routes:\n" ++ joinSep "\n" (activeRouteLines db)

/-- Embedding of `db.assign_vehicle_and_driver`: look up trip, vehicle and
driver; then either UPDATE the trip's existing deployment in place or
INSERT a fresh one. -/
def assign_vehicle_and_driver (db : DB) (trip_display_name vehicle_plate driver_name : String) :
    String × DB :=
  match db.daily_trips.find? (fun t => t.display_name == trip_display_name) with
  | none => ("Trip '" ++ trip_display_name ++ "' not found.", db)
  | some trip =>
  match db.vehicles.find? (fun v => v.license_plate == vehicle_plate) with
  | none => ("Vehicle '" ++ vehicle_plate ++ "' not found.", db)
  | some vehicle =>
  match db.drivers.find? (fun d => d.name == driver_name) with
  | none => ("Driver '" ++ driver_name ++ "' not found.", db)
  | some driver =>
  match db.deployments.find? (fun d => d.trip_id == trip.trip_id) with
  | some existing =>
      ("Updated deployment: trip '" ++ trip_display_name ++ "' now uses vehicle " ++
         vehicle_plate ++ " with driver " ++ driver_name ++ ".",
       { db with deployments := db.deployments.map (fun d =>
           if d.deployment_id == existing.deployment_id then
             { d with vehicle_id := some vehicle.vehicle_id, driver_id := some driver.driver_id }
           else d) })
  | none =>
      let newDep : DeploymentRow :=
        ⟨db.next_deployment_id, trip.trip_id, some vehicle.vehicle_id, some driver.driver_id⟩
      ("Assigned vehicle " ++ vehicle_plate ++ " and driver " ++ driver_name ++ " to trip '" ++
         trip_display_name ++ "'.",
       { db with deployments := db.deployments ++ [newDep],
                 next_deployment_id := db.next_deployment_id + 1 })

/-- Embedding of `db.remove_vehicle_from_trip` (the safety-gated mutation).
The first SELECT inner-joins `daily_trips` with `routes`, so a trip whose
route row is missing also reports "not found".  `booking` models
`trip["booking_status_percentage"] or 0.0` (SQL NULL collapses to 0). -/
def remove_vehicle_from_trip (db : DB) (trip_display_name : String) (force : Bool) :
    String × DB :=
  match db.daily_trips.find? (fun t => t.display_name == trip_display_name) with
  | none => ("Trip '" ++ trip_display_name ++ "' not found.", db)
  | some trip =>
  match db.routes.find? (fun r => r.route_id == trip.route_id) with
  | none => ("Trip '" ++ trip_display_name ++ "' not found.", db)
  | some route =>
  match db.deployments.find? (fun d => d.trip_id == trip.trip_id) with
  | none => ("No vehicle is currently assigned to trip '" ++ trip_display_name ++ "'.", db)
  | some dep =>
    let plate : Option String :=
      (dep.vehicle_id.bind (fun vid => db.vehicles.find? (fun v => v.vehicle_id == vid))).map
        (fun v => v.license_plate)
    let driver : Option String :=
      (dep.driver_id.bind (fun did => db.drivers.find? (fun d => d.driver_id == did))).map
        (fun d => d.name)
    let booking : Rat := trip.booking_status_percentage.getD 0
    if 0 < booking ∧ force = false then
      ("WARNING: Trip '" ++ trip.display_name ++ "' on route '" ++ route.route_display_name ++
         "' is already ~" ++ toString booking ++ "% booked. " ++
         "Removing the vehicle will cancel these bookings and the trip-sheet will fail to generate. " ++
         "Ask the user for a yes/no confirmation. If they confirm, call this again with force=true.",
       db)
    else
      ("Removed vehicle '" ++ pyOptStr plate ++ "' and driver '" ++ pyOptStr driver ++
         "' from trip '" ++ trip_display_name ++ "'.",
       { db with deployments :=
           db.deployments.filter (fun d => d.deployment_id != dep.deployment_id) })

/-! ## Generic query escape hatch (`db.dynamic_run_sql_query`) -/

/-- Outcome of handing a statement to SQLite: either a successor database
with the fetched rows (rendered to strings) and the cursor's rowcount, or a
raised exception's message. -/
inductive SqlResult where
  | ok (db' : DB) (headers : List String) (rows : List (List String)) (rowcount : Int)
  | err (e : String)
deriving DecidableEq

/-- SQLite itself, kept opaque: statement text and current database in,
`SqlResult` out. -/
def SqlEngine : Type :=
  String → DB → SqlResult

/-- The result-table rendering of `db.dynamic_run_sql_query`: header line,
a dash line of the same length, then one line per row, `|`-separated. -/
def renderRows (headers : List String) (rows : List (List String)) : String :=
  let hline := joinSep " | " headers
  joinSep "\n" (hline :: (⟨List.replicate hline.length '-'⟩ : String) :: rows.map (joinSep " | "))

/-- The denylist of `db.dynamic_run_sql_query` (substring match on the
lowered, stripped statement). -/
def bannedKeywords : List String :=
  ["drop ", "alter ", "pragma", "attach", "detach"]

/-- Embedding of `db.dynamic_run_sql_query`.  Guards run before SQLite is
touched; a SELECT never commits (so the caller's database is returned
unchanged), a non-SELECT commits the engine's successor state and reports
`cur.rowcount`; an exception is caught into an `SQL error:` message with
the uncommitted work rolled back. -/
def dynamic_run_sql_query (engine : SqlEngine) (db : DB) (query : String) (mode : String) :
    String × DB :=
  let q_lower := pyLower (pyStrip query)
  if bannedKeywords.any (fun b => pyIn b q_lower) then
    ("Unsafe SQL command blocked.", db)
  else if mode == "read" && !(pyStartsWith q_lower "select") then
    ("Only SELECT queries allowed in read mode.", db)
  else
    match engine query db with
    | .err e => ("SQL error: " ++ e, db)
    | .ok db' headers rows rowcount =>
      if pyStartsWith q_lower "select" then
        (if rows.isEmpty then "Query executed. No rows returned." else renderRows headers rows, db)
      else
        ("Query executed successfully (" ++ toString rowcount ++ " rows affected).", db')

/-! ## Decision loop (`movi_agent.build_movi_graph`) -/

/-- One LLM-requested tool invocation. -/
structure ToolCall where
  call_id : String
  call_name : String
  call_args : String
deriving DecidableEq

/-- A LangGraph chat message: human input, an AI turn (with the tool calls
it requests), or one tool-result turn tagged with its originating call. -/
inductive GMsg where
  | human (content : String)
  | ai (content : String) (tool_calls : List ToolCall)
  | tool (content : String) (tool_call_id : String)
deriving DecidableEq

/-- The compiled graph of `movi_agent.build_movi_graph`: starting at the
`agent` node, append the reasoning capability's message; `tools_condition`
routes to the `tools` node exactly when that message requests tool calls,
in which case each call is dispatched in order (one tool message each,
tagged by call id) and the edge `tools → agent` loops.  With no calls the
run ends.  `fuel` bounds the unbounded source loop; the second list
accumulates every dispatched call. -/
def runGraph (reason : List GMsg → String × List ToolCall) (dispatch : ToolCall → String) :
    Nat → List GMsg → List ToolCall → Option (List GMsg × List ToolCall)
  | 0, _, _ => none
  | fuel + 1, msgs, dispatched =>
    let step := reason msgs
    let msgs' := msgs ++ [GMsg.ai step.1 step.2]
    if step.2.isEmpty then some (msgs', dispatched)
    else
      runGraph reason dispatch fuel
        (msgs' ++ step.2.map (fun c => GMsg.tool (dispatch c) c.call_id))
        (dispatched ++ step.2)

/-! ## Conversation session reformatting (`app._history_to_graph_messages`) -/

/-- One entry of the Streamlit-side chat history. -/
structure HistMsg where
  role : String
  content : String
deriving DecidableEq

/-- A message produced for the graph: plain human text, human text with an
attached image, or an AI turn. -/
inductive AppMsg where
  | human (content : String)
  | humanImage (content : String) (image_url : String)
  | ai (content : String)
deriving DecidableEq

/-- Python truthiness of the optional base64 payload (`None` and the empty
string are falsy). -/
def imgTruthy : Option String → Bool
  | some s => !s.isEmpty
  | none => false

/-- The per-entry conversion of `app._history_to_graph_messages`: a user
turn becomes a human message, multimodal exactly when it is the last entry
and an image payload is (truthily) present; every other role becomes an AI
message. -/
def histEntryToGraph (msg : HistMsg) (is_last : Bool) (img : Option String) : AppMsg :=
  if msg.role == "user" then
    if is_last && imgTruthy img then
      AppMsg.humanImage msg.content ("data:image/png;base64," ++ img.getD "")
    else AppMsg.human msg.content
  else AppMsg.ai msg.content

/-- Embedding of `app._history_to_graph_messages`: each history entry is
converted with `is_last` true exactly on the final index. -/
def historyToGraphMessages (img : Option String) : List HistMsg → List AppMsg
  | [] => []
  | [m] => [histEntryToGraph m true img]
  | m :: m2 :: rest => histEntryToGraph m false img :: historyToGraphMessages img (m2 :: rest)

/-! ## A small concrete database used to exercise the operations -/

/-- A tiny concrete database: one path `P0` with the single stop `A0`, one
active route, three trips (`T1` booked 25%, `T2` booked 0%, `T3` with NULL
booking), two vehicles, two drivers, and deployments for `T1` and `T3`. -/
def wdb : DB where
  stops := [⟨1, "A0", none, none⟩]
  paths := [⟨1, "P0"⟩]
  path_stops := [⟨1, 1, 1, 1⟩]
  routes := [⟨1, 1, "P0 - 08:30", "08:30", "IN", "A0", "A0", "active"⟩]
  vehicles := [⟨1, "KA-01", "Bus", 40⟩, ⟨2, "KA-02", "Cab", 4⟩]
  drivers := [⟨1, "Amit", none⟩, ⟨2, "Rahul", none⟩]
  daily_trips := [⟨1, 1, "T1", some 25, some "00:01 IN"⟩,
                  ⟨2, 1, "T2", some 0, none⟩,
                  ⟨3, 1, "T3", none, none⟩]
  deployments := [⟨1, 1, some 1, some 1⟩, ⟨2, 3, some 2, some 2⟩]
  next_stop_id := 2
  next_path_id := 2
  next_path_stop_id := 2
  next_route_id := 2
  next_vehicle_id := 3
  next_driver_id := 3
  next_trip_id := 4
  next_deployment_id := 3

/-! ## Substring lemmas -/

theorem containsSub_appendLeft {s pat : String} (a : String) (h : ContainsSub s pat) :
    ContainsSub (a ++ s) pat := by
  obtain ⟨p, q, rfl⟩ := h
  exact ⟨a ++ p, q, by simp [String.append_assoc]⟩

theorem containsSub_appendRight {s pat : String} (a : String) (h : ContainsSub s pat) :
    ContainsSub (s ++ a) pat := by
  obtain ⟨p, q, rfl⟩ := h
  exact ⟨p, q ++ a, by simp [String.append_assoc]⟩

/-! ## C1: the safety gate warns and does not mutate -/

/-- **C1.** For every trip that exists (its route row included, as the
lookup inner-joins `routes`) and has a deployment, if its booking
percentage is strictly positive then `remove_vehicle_from_trip` with
`force = false` returns the database unchanged together with a message
containing `WARNING`, instructing the caller to obtain a human yes/no
confirmation and to call again with `force=true`. -/
theorem remove_vehicle_warns_without_mutation
    (db : DB) (tn : String) (trip : TripRow) (route : RouteRow) (dep : DeploymentRow)
    (ht : db.daily_trips.find? (fun t => t.display_name == tn) = some trip)
    (hr : db.routes.find? (fun r => r.route_id == trip.route_id) = some route)
    (hd : db.deployments.find? (fun d => d.trip_id == trip.trip_id) = some dep)
    (hb : 0 < trip.booking_status_percentage.getD 0) :
    (remove_vehicle_from_trip db tn false).2 = db ∧
    ContainsSub (remove_vehicle_from_trip db tn false).1 "WARNING" ∧
    ContainsSub (remove_vehicle_from_trip db tn false).1 "yes/no confirmation" ∧
    ContainsSub (remove_vehicle_from_trip db tn false).1 "call this again with force=true" := by
  have hmsg : remove_vehicle_from_trip db tn false =
      ("WARNING: Trip '" ++ trip.display_name ++ "' on route '" ++ route.route_display_name ++
         "' is already ~" ++ toString (trip.booking_status_percentage.getD 0) ++ "% booked. " ++
         "Removing the vehicle will cancel these bookings and the trip-sheet will fail to generate. " ++
         "Ask the user for a yes/no confirmation. If they confirm, call this again with force=true.",
       db) := by
    simp only [remove_vehicle_from_trip, ht, hr, hd]
    rw [if_pos (And.intro hb trivial)]
  rw [hmsg]
  refine ⟨rfl, ?_, ?_, ?_⟩
  · apply containsSub_appendRight
    apply containsSub_appendRight
    apply containsSub_appendRight
    apply containsSub_appendRight
    apply containsSub_appendRight
    apply containsSub_appendRight
    apply containsSub_appendRight
    apply containsSub_appendRight
    exact ⟨"", ": Trip '", by decide⟩
  · apply containsSub_appendLeft
    exact ⟨"Ask the user for a ", ". If they confirm, call this again with force=true.", by decide⟩
  · apply containsSub_appendLeft
    exact ⟨"Ask the user for a yes/no confirmation. If they confirm, ", ".", by decide⟩

/-- Witness for C1 on the concrete database: trip `T1` is 25% booked and
deployed, so the forceless removal warns and leaves the state intact. -/
theorem remove_vehicle_warns_without_mutation_witness :
    (remove_vehicle_from_trip wdb "T1" false).2 = wdb ∧
    ContainsSub (remove_vehicle_from_trip wdb "T1" false).1 "WARNING" ∧
    ContainsSub (remove_vehicle_from_trip wdb "T1" false).1 "yes/no confirmation" ∧
    ContainsSub (remove_vehicle_from_trip wdb "T1" false).1 "call this again with force=true" :=
  remove_vehicle_warns_without_mutation wdb "T1"
    ⟨1, 1, "T1", some 25, some "00:01 IN"⟩
    ⟨1, 1, "P0 - 08:30", "08:30", "IN", "A0", "A0", "active"⟩
    ⟨1, 1, some 1, some 1⟩ rfl rfl rfl (by norm_num)

/-! ## C2 / C9: the deletion branch of the safety gate -/

/-- Helper: whenever the gate condition fails (booking not strictly
positive, or the force flag set), `remove_vehicle_from_trip` deletes the
found deployment and returns the removal confirmation. -/
theorem remove_vehicle_delete_eq
    (db : DB) (tn : String) (force : Bool) (trip : TripRow) (route : RouteRow)
    (dep : DeploymentRow)
    (ht : db.daily_trips.find? (fun t => t.display_name == tn) = some trip)
    (hr : db.routes.find? (fun r => r.route_id == trip.route_id) = some route)
    (hd : db.deployments.find? (fun d => d.trip_id == trip.trip_id) = some dep)
    (hcond : ¬ (0 < trip.booking_status_percentage.getD 0 ∧ force = false)) :
    remove_vehicle_from_trip db tn force =
      ("Removed vehicle '" ++
         pyOptStr ((dep.vehicle_id.bind
           (fun vid => db.vehicles.find? (fun v => v.vehicle_id == vid))).map
             (fun v => v.license_plate)) ++
         "' and driver '" ++
         pyOptStr ((dep.driver_id.bind
           (fun did => db.drivers.find? (fun d => d.driver_id == did))).map
             (fun d => d.name)) ++
         "' from trip '" ++ tn ++ "'.",
       { db with deployments :=
           db.deployments.filter (fun d => d.deployment_id != dep.deployment_id) }) := by
  simp only [remove_vehicle_from_trip, ht, hr, hd]
  rw [if_neg hcond]

/-- **C2.** For every existing trip with a deployment, if the booking
percentage is 0 or the force flag is set, `remove_vehicle_from_trip`
deletes the trip's deployment row and returns a confirmation naming the
removed vehicle and driver; the deleted row is gone from the result. -/
theorem remove_vehicle_zero_or_forced_deletes
    (db : DB) (tn : String) (force : Bool) (trip : TripRow) (route : RouteRow)
    (dep : DeploymentRow) (vid did : Nat) (v : VehicleRow) (dr : DriverRow)
    (ht : db.daily_trips.find? (fun t => t.display_name == tn) = some trip)
    (hr : db.routes.find? (fun r => r.route_id == trip.route_id) = some route)
    (hd : db.deployments.find? (fun d => d.trip_id == trip.trip_id) = some dep)
    (hvid : dep.vehicle_id = some vid)
    (hv : db.vehicles.find? (fun w => w.vehicle_id == vid) = some v)
    (hdid : dep.driver_id = some did)
    (hdr : db.drivers.find? (fun w => w.driver_id == did) = some dr)
    (hgo : trip.booking_status_percentage.getD 0 = 0 ∨ force = true) :
    remove_vehicle_from_trip db tn force =
      ("Removed vehicle '" ++ v.license_plate ++ "' and driver '" ++ dr.name ++
         "' from trip '" ++ tn ++ "'.",
       { db with deployments :=
           db.deployments.filter (fun d => d.deployment_id != dep.deployment_id) }) ∧
    dep ∉ (remove_vehicle_from_trip db tn force).2.deployments := by
  have hcond : ¬ (0 < trip.booking_status_percentage.getD 0 ∧ force = false) := by
    rcases hgo with h | h
    · rw [h]; simp
    · rw [h]; simp
  have hres := remove_vehicle_delete_eq db tn force trip route dep ht hr hd hcond
  rw [hvid, hdid] at hres
  simp only [Option.some_bind] at hres
  rw [hv, hdr] at hres
  simp only [Option.map_some', pyOptStr] at hres
  refine ⟨hres, ?_⟩
  rw [hres]
  simp [List.mem_filter]

/-- Witness for C2 on the concrete database: trip `T2` has booking 0 and
... no deployment — use trip `T1` (booked) with `force = true` instead,
which the second disjunct covers. -/
theorem remove_vehicle_zero_or_forced_deletes_witness :
    remove_vehicle_from_trip wdb "T1" true =
      ("Removed vehicle '" ++ "KA-01" ++ "' and driver '" ++ "Amit" ++
         "' from trip '" ++ "T1" ++ "'.",
       { wdb with deployments :=
           wdb.deployments.filter (fun d => d.deployment_id != 1) }) ∧
    (⟨1, 1, some 1, some 1⟩ : DeploymentRow) ∉ (remove_vehicle_from_trip wdb "T1" true).2.deployments :=
  remove_vehicle_zero_or_forced_deletes wdb "T1" true
    ⟨1, 1, "T1", some 25, some "00:01 IN"⟩
    ⟨1, 1, "P0 - 08:30", "08:30", "IN", "A0", "A0", "active"⟩
    ⟨1, 1, some 1, some 1⟩ 1 1 ⟨1, "KA-01", "Bus", 40⟩ ⟨1, "Amit", none⟩
    rfl rfl rfl rfl rfl rfl rfl (Or.inr rfl)

/-- **C9.** For every existing trip with a deployment: if the stored
booking percentage is SQL NULL, the forceless removal treats it as 0 and
deletes the deployment directly, answering with the removal confirmation
rather than the warning; more generally the confirmation-gated branch is
taken only when the (NULL-collapsed) stored percentage is strictly
positive — whenever it is not, every call deletes directly. -/
theorem remove_vehicle_null_booking_deletes
    (db : DB) (tn : String) (trip : TripRow) (route : RouteRow) (dep : DeploymentRow)
    (ht : db.daily_trips.find? (fun t => t.display_name == tn) = some trip)
    (hr : db.routes.find? (fun r => r.route_id == trip.route_id) = some route)
    (hd : db.deployments.find? (fun d => d.trip_id == trip.trip_id) = some dep) :
    (trip.booking_status_percentage = none →
      ∃ p d, remove_vehicle_from_trip db tn false =
        ("Removed vehicle '" ++ p ++ "' and driver '" ++ d ++ "' from trip '" ++ tn ++ "'.",
         { db with deployments :=
             db.deployments.filter (fun x => x.deployment_id != dep.deployment_id) })) ∧
    (∀ force : Bool, ¬ 0 < trip.booking_status_percentage.getD 0 →
      ∃ p d, remove_vehicle_from_trip db tn force =
        ("Removed vehicle '" ++ p ++ "' and driver '" ++ d ++ "' from trip '" ++ tn ++ "'.",
         { db with deployments :=
             db.deployments.filter (fun x => x.deployment_id != dep.deployment_id) })) := by
  have key : ∀ force : Bool, ¬ 0 < trip.booking_status_percentage.getD 0 →
      ∃ p d, remove_vehicle_from_trip db tn force =
        ("Removed vehicle '" ++ p ++ "' and driver '" ++ d ++ "' from trip '" ++ tn ++ "'.",
         { db with deployments :=
             db.deployments.filter (fun x => x.deployment_id != dep.deployment_id) }) := by
    intro force hng
    exact ⟨_, _, remove_vehicle_delete_eq db tn force trip route dep ht hr hd
      (fun hc => hng hc.1)⟩
  refine ⟨fun hnull => ?_, key⟩
  exact key false (by rw [hnull]; simp)

/-- Witness for C9 on the concrete database: trip `T3` has a NULL booking
percentage and a deployment, so forceless removal deletes it directly. -/
theorem remove_vehicle_null_booking_deletes_witness :
    ((⟨3, 1, "T3", none, none⟩ : TripRow).booking_status_percentage = none →
      ∃ p d, remove_vehicle_from_trip wdb "T3" false =
        ("Removed vehicle '" ++ p ++ "' and driver '" ++ d ++ "' from trip '" ++ "T3" ++ "'.",
         { wdb with deployments :=
             wdb.deployments.filter (fun x => x.deployment_id != 2) })) ∧
    (∀ force : Bool, ¬ 0 < ((⟨3, 1, "T3", none, none⟩ : TripRow)).booking_status_percentage.getD 0 →
      ∃ p d, remove_vehicle_from_trip wdb "T3" force =
        ("Removed vehicle '" ++ p ++ "' and driver '" ++ d ++ "' from trip '" ++ "T3" ++ "'.",
         { wdb with deployments :=
             wdb.deployments.filter (fun x => x.deployment_id != 2) })) :=
  remove_vehicle_null_booking_deletes wdb "T3"
    ⟨3, 1, "T3", none, none⟩
    ⟨1, 1, "P0 - 08:30", "08:30", "IN", "A0", "A0", "active"⟩
    ⟨2, 3, some 2, some 2⟩ rfl rfl rfl

/-! ## C3: decision-loop termination -/

/-- **C3.** For any reasoning capability that, on the initial history,
requests exactly one tool invocation and, on the history extended with
that AI turn and the dispatched tool result, answers with a final message
carrying no invocations, the compiled graph performs exactly one dispatch
(the accumulated dispatch log is `[c]`) and terminates with the final
message appended as the new assistant turn. -/
theorem decision_loop_one_dispatch_terminates
    (reason : List GMsg → String × List ToolCall) (dispatch : ToolCall → String)
    (msgs0 : List GMsg) (s1 final : String) (c : ToolCall) (fuel : Nat)
    (h1 : reason msgs0 = (s1, [c]))
    (h2 : reason (msgs0 ++ [GMsg.ai s1 [c], GMsg.tool (dispatch c) c.call_id]) = (final, []))
    (hf : 2 ≤ fuel) :
    runGraph reason dispatch fuel msgs0 [] =
      some (msgs0 ++ [GMsg.ai s1 [c], GMsg.tool (dispatch c) c.call_id, GMsg.ai final []],
            [c]) ∧
    (msgs0 ++ [GMsg.ai s1 [c], GMsg.tool (dispatch c) c.call_id, GMsg.ai final []]).getLast?
      = some (GMsg.ai final []) := by
  obtain ⟨k, rfl⟩ : ∃ k, fuel = k + 2 := ⟨fuel - 2, by omega⟩
  constructor
  · show runGraph reason dispatch (k + 1 + 1) msgs0 [] = _
    rw [runGraph]
    simp only [h1, List.isEmpty_cons, List.map_cons, List.map_nil, List.nil_append]
    rw [runGraph]
    simp only [List.append_assoc, List.cons_append, List.singleton_append, List.nil_append] at h2 ⊢
    rw [h2]
    simp
  · simp

/-- Witness for C3: a concrete two-step stub (first turn requests one
`tool_get_trip_status` call, second turn answers) run with fuel 5 from a
single-user-message history. -/
theorem decision_loop_one_dispatch_terminates_witness :
    runGraph
      (fun msgs => if msgs.length == 1
        then ("", [⟨"call_1", "tool_get_trip_status", "T1"⟩])
        else ("All good.", []))
      (fun _ => "Trip found.") 5 [GMsg.human "status of T1?"] [] =
      some ([GMsg.human "status of T1?"] ++
              [GMsg.ai "" [⟨"call_1", "tool_get_trip_status", "T1"⟩],
               GMsg.tool "Trip found." "call_1",
               GMsg.ai "All good." []],
            [⟨"call_1", "tool_get_trip_status", "T1"⟩]) ∧
    ([GMsg.human "status of T1?"] ++
       [GMsg.ai "" [⟨"call_1", "tool_get_trip_status", "T1"⟩],
        GMsg.tool "Trip found." "call_1",
        GMsg.ai "All good." []]).getLast? = some (GMsg.ai "All good." []) :=
  decision_loop_one_dispatch_terminates
    (fun msgs => if msgs.length == 1
      then ("", [⟨"call_1", "tool_get_trip_status", "T1"⟩])
      else ("All good.", []))
    (fun _ => "Trip found.") [GMsg.human "status of T1?"] "" "All good."
    ⟨"call_1", "tool_get_trip_status", "T1"⟩ 5 rfl rfl (by norm_num)

/-! ## C8: the image is attached only to the last user turn -/

/-- `hasImage m` holds exactly for multimodal (image-carrying) messages. -/
def hasImage : AppMsg → Bool
  | .humanImage _ _ => true
  | _ => false

theorem getLast?_cons_of_ne {α : Type} (a : α) {l : List α} (h : l ≠ []) :
    (a :: l).getLast? = l.getLast? := by
  cases l with
  | nil => exact absurd rfl h
  | cons b t => exact List.getLast?_cons_cons

theorem histEntryToGraph_not_last_no_image (m : HistMsg) (img : Option String) :
    hasImage (histEntryToGraph m false img) = false := by
  unfold histEntryToGraph
  by_cases h : m.role == "user" <;> simp [h, hasImage]

theorem historyToGraphMessages_length (img : Option String) :
    ∀ history : List HistMsg, (historyToGraphMessages img history).length = history.length
  | [] => rfl
  | [_] => rfl
  | _ :: m2 :: rest => by
    rw [historyToGraphMessages]
    simp [historyToGraphMessages_length img (m2 :: rest)]

/-- **C8.** For every history and optional image payload, the reformatted
message list carries an image only on its final message, only when the
final history turn is a user turn and the payload is (truthily) present —
earlier turns never carry an attachment — and in exactly that case the
final message is the multimodal human message built from the last turn's
content and the payload's data URL. -/
theorem image_only_on_last_user_turn (history : List HistMsg) (img : Option String) :
    (∀ m ∈ (historyToGraphMessages img history).dropLast, hasImage m = false) ∧
    (∀ m, (historyToGraphMessages img history).getLast? = some m → hasImage m = true →
      imgTruthy img = true ∧
      ∃ hm, history.getLast? = some hm ∧ hm.role = "user" ∧
        m = AppMsg.humanImage hm.content ("data:image/png;base64," ++ img.getD "")) ∧
    (∀ hm, history.getLast? = some hm → hm.role = "user" → imgTruthy img = true →
      (historyToGraphMessages img history).getLast? =
        some (AppMsg.humanImage hm.content ("data:image/png;base64," ++ img.getD ""))) := by
  induction history with
  | nil => exact ⟨by simp [historyToGraphMessages], by simp [historyToGraphMessages], by simp⟩
  | cons m rest ih =>
    cases rest with
    | nil =>
      refine ⟨by simp [historyToGraphMessages], ?_, ?_⟩
      · intro x hx himg
        simp only [historyToGraphMessages, List.getLast?_singleton, Option.some_inj] at hx
        subst hx
        unfold histEntryToGraph at himg ⊢
        by_cases hrole : m.role == "user"
        · by_cases htr : imgTruthy img
          · refine ⟨htr, m, by simp, by simpa using hrole, ?_⟩
            simp [hrole, htr, histEntryToGraph]
          · simp [hrole, htr, hasImage] at himg
        · simp [hrole, hasImage] at himg
      · intro hm hhm hrole htr
        simp only [List.getLast?_singleton, Option.some_inj] at hhm
        subst hhm
        simp [historyToGraphMessages, histEntryToGraph, hrole, htr]
    | cons m2 rest2 =>
      obtain ⟨ih1, ih2, ih3⟩ := ih
      have hne : historyToGraphMessages img (m2 :: rest2) ≠ [] := by
        have := historyToGraphMessages_length img (m2 :: rest2)
        intro h
        rw [h] at this
        simp at this
      refine ⟨?_, ?_, ?_⟩
      · intro x hx
        rw [historyToGraphMessages] at hx
        rw [List.dropLast_cons_of_ne_nil hne] at hx
        rcases List.mem_cons.mp hx with h | h
        · rw [h]; exact histEntryToGraph_not_last_no_image m img
        · exact ih1 x h
      · intro x hx himg
        rw [historyToGraphMessages, getLast?_cons_of_ne _ hne] at hx
        obtain ⟨htr, hm, hhm, hrest⟩ := ih2 x hx himg
        exact ⟨htr, hm, by rw [List.getLast?_cons_cons]; exact hhm, hrest⟩
      · intro hm hhm hrole htr
        rw [List.getLast?_cons_cons] at hhm
        rw [historyToGraphMessages, getLast?_cons_of_ne _ hne]
        exact ih3 hm hhm hrole htr

/-- Witness for C8: a three-turn history ending in a user turn with a
non-empty image payload maps to a list whose last message is the
multimodal one. -/
theorem image_only_on_last_user_turn_witness :
    (∀ m ∈ (historyToGraphMessages (some "abc")
        [⟨"user", "hi"⟩, ⟨"assistant", "hello"⟩, ⟨"user", "look at this"⟩]).dropLast,
      hasImage m = false) ∧
    (historyToGraphMessages (some "abc")
        [⟨"user", "hi"⟩, ⟨"assistant", "hello"⟩, ⟨"user", "look at this"⟩]).getLast? =
      some (AppMsg.humanImage "look at this" ("data:image/png;base64," ++ (some "abc").getD "")) :=
  ⟨(image_only_on_last_user_turn
      [⟨"user", "hi"⟩, ⟨"assistant", "hello"⟩, ⟨"user", "look at this"⟩] (some "abc")).1,
   (image_only_on_last_user_turn
      [⟨"user", "hi"⟩, ⟨"assistant", "hello"⟩, ⟨"user", "look at this"⟩] (some "abc")).2.2
     ⟨"user", "look at this"⟩ rfl rfl rfl⟩

/-! ## C4: generic-query guards -/

/-- Occurrence of `pat` as a contiguous segment of `l`. -/
def SubL (pat l : List Char) : Prop :=
  ∃ p q, l = p ++ pat ++ q

theorem isPrefixL_self_append (pat t : List Char) : isPrefixL pat (pat ++ t) = true := by
  induction pat with
  | nil => rfl
  | cons a as ih => simp [isPrefixL, ih]

theorem hasSubL_nil_pat (l : List Char) : hasSubL [] l = true := by
  cases l <;> simp [hasSubL, isPrefixL]

theorem hasSubL_at_front (pat q : List Char) : hasSubL pat (pat ++ q) = true := by
  cases pat with
  | nil => exact hasSubL_nil_pat q
  | cons a as =>
    rw [List.cons_append, hasSubL]
    have : isPrefixL (a :: as) (a :: (as ++ q)) = true := isPrefixL_self_append (a :: as) q
    rw [this]
    rfl

theorem hasSubL_of_subL {pat l : List Char} (h : SubL pat l) : hasSubL pat l = true := by
  obtain ⟨p, q, rfl⟩ := h
  induction p with
  | nil => simpa using hasSubL_at_front pat q
  | cons c p ih =>
    rw [show ((c :: p) ++ pat ++ q) = c :: (p ++ pat ++ q) by simp, hasSubL, ih]
    simp

theorem SubL.mapChar {pat l : List Char} (f : Char → Char) (h : SubL pat l) :
    SubL (pat.map f) (l.map f) := by
  obtain ⟨p, q, rfl⟩ := h
  exact ⟨p.map f, q.map f, by simp⟩

theorem SubL.rev {pat l : List Char} (h : SubL pat l) : SubL pat.reverse l.reverse := by
  obtain ⟨p, q, rfl⟩ := h
  exact ⟨q.reverse, p.reverse, by simp⟩

/-- Stripping whitespace from the front cannot destroy an occurrence of a
pattern whose first character is not whitespace. -/
theorem SubL.dropWhileWs {pat l : List Char} (c : Char) (cs : List Char)
    (hpat : pat = c :: cs) (hc : c.isWhitespace = false) (h : SubL pat l) :
    SubL pat (l.dropWhile Char.isWhitespace) := by
  obtain ⟨p, q, rfl⟩ := h
  rw [List.append_assoc, List.dropWhile_append]
  split
  · subst hpat
    refine ⟨[], q, ?_⟩
    rw [List.cons_append, List.dropWhile_cons, hc]
    simp
  · exact ⟨List.dropWhile Char.isWhitespace p, q, by rw [List.append_assoc]⟩

/-- Any statement containing `drop table stops` trips the denylist after
stripping and lowering. -/
theorem banned_hit_of_contains_drop (query : String)
    (h : ContainsSub query "drop table stops") :
    (bannedKeywords.any (fun b => pyIn b (pyLower (pyStrip query)))) = true := by
  obtain ⟨pre, post, hq⟩ := h
  have h1 : SubL ("drop table stops".data) query.data :=
    ⟨pre.data, post.data, by rw [hq]; simp⟩
  have h2 : SubL ("drop table stops".data) (query.data.dropWhile Char.isWhitespace) :=
    h1.dropWhileWs 'd' ("rop table stops".data) (by decide) (by decide)
  have h3 : SubL ("drop table stops".data.reverse)
      (((query.data.dropWhile Char.isWhitespace).reverse).dropWhile Char.isWhitespace) :=
    (h2.rev).dropWhileWs 's' ("pots elbat pord".data) (by decide) (by decide)
  have h4 := h3.rev
  rw [List.reverse_reverse] at h4
  have h5 : SubL ("drop table stops".data) (pyStrip query).data := h4
  have h6 := h5.mapChar Char.toLower
  rw [show (("drop table stops".data).map Char.toLower) = "drop table stops".data by decide] at h6
  have h7 : SubL ("drop ".data) (pyLower (pyStrip query)).data := by
    obtain ⟨p, q, he⟩ := h6
    refine ⟨p, "table stops".data ++ q, ?_⟩
    show (pyStrip query).data.map Char.toLower = _
    rw [he, show ("drop table stops".data) = "drop ".data ++ "table stops".data by decide]
    simp
  have h9 : pyIn "drop " (pyLower (pyStrip query)) = true := hasSubL_of_subL h7
  simp [bannedKeywords, h9]

/-- **C4.** The generic-query escape hatch: (a) any statement containing
`drop table stops` is rejected unexecuted in every mode, leaving the
database untouched; (b) the non-SELECT statement
`update vehicles set capacity=0` is rejected in `read` mode; (c) the same
statement in `write` mode is handed to SQLite and the result reports the
affected-row count together with the committed successor state. -/
theorem generic_query_denylist_and_mode
    (engine : SqlEngine) (db dbu dbu' : DB) (query mode : String)
    (headers : List String) (rows : List (List String)) (rc : Int)
    (hq : ContainsSub query "drop table stops")
    (hrun : engine "update vehicles set capacity=0" dbu = SqlResult.ok dbu' headers rows rc) :
    dynamic_run_sql_query engine db query mode = ("Unsafe SQL command blocked.", db) ∧
    dynamic_run_sql_query engine dbu "update vehicles set capacity=0" "read" =
      ("Only SELECT queries allowed in read mode.", dbu) ∧
    dynamic_run_sql_query engine dbu "update vehicles set capacity=0" "write" =
      ("Query executed successfully (" ++ toString rc ++ " rows affected).", dbu') := by
  have hb : (bannedKeywords.any
      (fun b => pyIn b (pyLower (pyStrip "update vehicles set capacity=0")))) = false := by
    decide
  have hsel : pyStartsWith (pyLower (pyStrip "update vehicles set capacity=0")) "select" = false := by
    decide
  refine ⟨?_, ?_, ?_⟩
  · unfold dynamic_run_sql_query
    rw [if_pos (banned_hit_of_contains_drop query hq)]
  · simp [dynamic_run_sql_query, hb, hsel]
  · simp [dynamic_run_sql_query, hb, hsel, hrun]

/-- A concrete engine implementing exactly the statement
`update vehicles set capacity=0`: zero every vehicle's capacity and report
the number of vehicle rows as the affected-row count. -/
def updVehiclesEngine : SqlEngine := fun q db =>
  if q == "update vehicles set capacity=0" then
    SqlResult.ok { db with vehicles := db.vehicles.map (fun v => { v with capacity := 0 }) }
      [] [] (db.vehicles.length : Int)
  else SqlResult.err "unsupported statement"

/-- `wdb` with every vehicle capacity zeroed. -/
def wdbCap0 : DB :=
  { wdb with vehicles := wdb.vehicles.map (fun v => { v with capacity := 0 }) }

/-- Witness for C4 on concrete inputs: a statement containing
`drop table stops` is blocked in write mode, and the capacity update is
rejected in read mode but executes in write mode against `wdb`. -/
theorem generic_query_denylist_and_mode_witness :
    dynamic_run_sql_query updVehiclesEngine wdb "we should drop table stops now" "write" =
      ("Unsafe SQL command blocked.", wdb) ∧
    dynamic_run_sql_query updVehiclesEngine wdb "update vehicles set capacity=0" "read" =
      ("Only SELECT queries allowed in read mode.", wdb) ∧
    dynamic_run_sql_query updVehiclesEngine wdb "update vehicles set capacity=0" "write" =
      ("Query executed successfully (" ++ toString (2 : Int) ++ " rows affected).", wdbCap0) :=
  generic_query_denylist_and_mode updVehiclesEngine wdb wdb wdbCap0
    "we should drop table stops now" "write" [] [] 2
    ⟨"we should ", " now", by decide⟩ (by decide)

/-! ## C6: deployment uniqueness and last-write-wins assignment -/

theorem filter_singleton_of_find? {α : Type} (p : α → Bool) (l : List α) (a : α)
    (h : l.find? p = some a) (hle : (l.filter p).length ≤ 1) : l.filter p = [a] := by
  induction l with
  | nil => simp at h
  | cons x t ih =>
    by_cases hx : p x
    · rw [List.find?_cons_of_pos _ hx, Option.some_inj] at h
      rw [List.filter_cons_of_pos hx] at hle ⊢
      have h0 : (t.filter p).length = 0 := by
        simp only [List.length_cons] at hle
        omega
      rw [List.length_eq_zero] at h0
      rw [h0, h]
    · rw [List.find?_cons_of_neg _ hx] at h
      rw [List.filter_cons_of_neg hx] at hle ⊢
      exact ih h hle

/-- Helper: the shape of `assign_vehicle_and_driver` when every lookup
succeeds and the trip already has a deployment (the UPDATE branch). -/
theorem assign_update_eq
    (db : DB) (tn plate dname : String) (trip : TripRow) (v : VehicleRow) (dr : DriverRow)
    (ex : DeploymentRow)
    (ht : db.daily_trips.find? (fun t => t.display_name == tn) = some trip)
    (hv : db.vehicles.find? (fun w => w.license_plate == plate) = some v)
    (hd : db.drivers.find? (fun w => w.name == dname) = some dr)
    (hex : db.deployments.find? (fun d => d.trip_id == trip.trip_id) = some ex) :
    assign_vehicle_and_driver db tn plate dname =
      ("Updated deployment: trip '" ++ tn ++ "' now uses vehicle " ++ plate ++
         " with driver " ++ dname ++ ".",
       { db with deployments := db.deployments.map (fun d =>
           if d.deployment_id == ex.deployment_id then
             { d with vehicle_id := some v.vehicle_id, driver_id := some dr.driver_id }
           else d) }) := by
  simp only [assign_vehicle_and_driver, ht, hv, hd, hex]

/-- Helper: the shape of `assign_vehicle_and_driver` when every lookup
succeeds and the trip has no deployment yet (the INSERT branch). -/
theorem assign_insert_eq
    (db : DB) (tn plate dname : String) (trip : TripRow) (v : VehicleRow) (dr : DriverRow)
    (ht : db.daily_trips.find? (fun t => t.display_name == tn) = some trip)
    (hv : db.vehicles.find? (fun w => w.license_plate == plate) = some v)
    (hd : db.drivers.find? (fun w => w.name == dname) = some dr)
    (hex : db.deployments.find? (fun d => d.trip_id == trip.trip_id) = none) :
    assign_vehicle_and_driver db tn plate dname =
      ("Assigned vehicle " ++ plate ++ " and driver " ++ dname ++ " to trip '" ++ tn ++ "'.",
       { db with
         deployments := db.deployments ++
           [⟨db.next_deployment_id, trip.trip_id, some v.vehicle_id, some dr.driver_id⟩]
         next_deployment_id := db.next_deployment_id + 1 }) := by
  simp only [assign_vehicle_and_driver, ht, hv, hd, hex]

/-- **C6.** If a database keeps at most one deployment per trip and every
deployment id is below the AUTOINCREMENT counter, then after two
successive assign-vehicle-and-driver calls for the same existing trip with
two different existing vehicles and drivers, exactly one deployment row
exists for that trip, and it references the second call's vehicle and
driver; the at-most-one-deployment-per-trip invariant still holds for
every trip. -/
theorem deployment_unique_last_write_wins
    (db : DB) (tn p1 p2 d1 d2 : String) (trip : TripRow)
    (v1 v2 : VehicleRow) (dr1 dr2 : DriverRow)
    (ht : db.daily_trips.find? (fun t => t.display_name == tn) = some trip)
    (hv1 : db.vehicles.find? (fun v => v.license_plate == p1) = some v1)
    (hv2 : db.vehicles.find? (fun v => v.license_plate == p2) = some v2)
    (hd1 : db.drivers.find? (fun d => d.name == d1) = some dr1)
    (hd2 : db.drivers.find? (fun d => d.name == d2) = some dr2)
    (hdiff : p1 ≠ p2)
    (huniq : ∀ tid : Nat, (db.deployments.filter (fun d => d.trip_id == tid)).length ≤ 1)
    (hfresh : ∀ d ∈ db.deployments, d.deployment_id < db.next_deployment_id) :
    ∃ dep : DeploymentRow,
      ((assign_vehicle_and_driver
          (assign_vehicle_and_driver db tn p1 d1).2 tn p2 d2).2).deployments.filter
        (fun d => d.trip_id == trip.trip_id) = [dep] ∧
      dep.vehicle_id = some v2.vehicle_id ∧ dep.driver_id = some dr2.driver_id ∧
      ∀ tid : Nat,
        ((((assign_vehicle_and_driver
            (assign_vehicle_and_driver db tn p1 d1).2 tn p2 d2).2).deployments.filter
          (fun d => d.trip_id == tid)).length ≤ 1) := by
  cases hdep : db.deployments.find? (fun d => d.trip_id == trip.trip_id) with
  | none =>
    -- first call INSERTs a fresh deployment, second call UPDATEs it
    have hfil : db.deployments.filter (fun d => d.trip_id == trip.trip_id) = [] :=
      List.filter_eq_nil_iff.mpr (List.find?_eq_none.mp hdep)
    have e1 := assign_insert_eq db tn p1 d1 trip v1 dr1 ht hv1 hd1 hdep
    have e1' : (assign_vehicle_and_driver db tn p1 d1).2 =
        { db with
          deployments := db.deployments ++
            [⟨db.next_deployment_id, trip.trip_id, some v1.vehicle_id, some dr1.driver_id⟩]
          next_deployment_id := db.next_deployment_id + 1 } := by
      rw [e1]
    have hdep2 : (db.deployments ++
        [(⟨db.next_deployment_id, trip.trip_id, some v1.vehicle_id,
          some dr1.driver_id⟩ : DeploymentRow)]).find?
        (fun d => d.trip_id == trip.trip_id) =
        some ⟨db.next_deployment_id, trip.trip_id, some v1.vehicle_id, some dr1.driver_id⟩ := by
      rw [List.find?_append, hdep]
      simp
    have e2 := assign_update_eq
      { db with
        deployments := db.deployments ++
          [⟨db.next_deployment_id, trip.trip_id, some v1.vehicle_id, some dr1.driver_id⟩]
        next_deployment_id := db.next_deployment_id + 1 }
      tn p2 d2 trip v2 dr2
      (⟨db.next_deployment_id, trip.trip_id, some v1.vehicle_id, some dr1.driver_id⟩ :
        DeploymentRow)
      ht hv2 hd2 hdep2
    have e2' : (assign_vehicle_and_driver (assign_vehicle_and_driver db tn p1 d1).2 tn p2 d2).2 =
        { db with
          deployments := (db.deployments ++
            [(⟨db.next_deployment_id, trip.trip_id, some v1.vehicle_id,
                some dr1.driver_id⟩ : DeploymentRow)]).map
              (fun d => if d.deployment_id == db.next_deployment_id then
                { d with vehicle_id := some v2.vehicle_id, driver_id := some dr2.driver_id }
              else d)
          next_deployment_id := db.next_deployment_id + 1 } := by
      rw [e1', e2]
    have hmap : (db.deployments ++
        [(⟨db.next_deployment_id, trip.trip_id, some v1.vehicle_id,
            some dr1.driver_id⟩ : DeploymentRow)]).map
          (fun d => if d.deployment_id == db.next_deployment_id then
            { d with vehicle_id := some v2.vehicle_id, driver_id := some dr2.driver_id }
          else d) =
        db.deployments ++
          [⟨db.next_deployment_id, trip.trip_id, some v2.vehicle_id, some dr2.driver_id⟩] := by
      rw [List.map_append]
      congr 1
      · have hid : ∀ d ∈ db.deployments,
            (fun d : DeploymentRow => if d.deployment_id == db.next_deployment_id then
              { d with vehicle_id := some v2.vehicle_id, driver_id := some dr2.driver_id }
            else d) d = id d := by
          intro d hd
          have hne : (d.deployment_id == db.next_deployment_id) = false := by
            simp only [beq_eq_false_iff_ne]
            exact Nat.ne_of_lt (hfresh d hd)
          simp [hne]
        rw [List.map_congr_left hid, List.map_id]
      · simp
    rw [e2', hmap] at *
    refine ⟨⟨db.next_deployment_id, trip.trip_id, some v2.vehicle_id, some dr2.driver_id⟩,
      ?_, rfl, rfl, ?_⟩
    · show (db.deployments ++
        [(⟨db.next_deployment_id, trip.trip_id, some v2.vehicle_id,
          some dr2.driver_id⟩ : DeploymentRow)]).filter (fun d => d.trip_id == trip.trip_id) = _
      rw [List.filter_append, hfil]
      simp
    · intro tid
      show ((db.deployments ++
        [(⟨db.next_deployment_id, trip.trip_id, some v2.vehicle_id,
          some dr2.driver_id⟩ : DeploymentRow)]).filter (fun d => d.trip_id == tid)).length ≤ 1
      rw [List.filter_append, List.length_append]
      by_cases htid : (trip.trip_id == tid)
      · have heq : trip.trip_id = tid := eq_of_beq htid
        rw [← heq, hfil]
        simp
      · have h0 : (List.filter (fun d : DeploymentRow => d.trip_id == tid)
            [⟨db.next_deployment_id, trip.trip_id, some v2.vehicle_id,
              some dr2.driver_id⟩]).length = 0 := by
          simp [htid]
        rw [h0]
        simpa using huniq tid
  | some ex =>
    -- both calls take the UPDATE branch on the same row
    have e1 := assign_update_eq db tn p1 d1 trip v1 dr1 ex ht hv1 hd1 hdep
    have e1' : (assign_vehicle_and_driver db tn p1 d1).2 =
        { db with
          deployments := db.deployments.map
            (fun d => if d.deployment_id == ex.deployment_id then
              { d with vehicle_id := some v1.vehicle_id, driver_id := some dr1.driver_id }
            else d) } := by
      rw [e1]
    have hcomp1 : ((fun d : DeploymentRow => d.trip_id == trip.trip_id) ∘
        (fun d : DeploymentRow => if d.deployment_id == ex.deployment_id then
          { d with vehicle_id := some v1.vehicle_id, driver_id := some dr1.driver_id }
        else d)) = (fun d : DeploymentRow => d.trip_id == trip.trip_id) := by
      funext d
      by_cases h : (d.deployment_id == ex.deployment_id) <;> simp [Function.comp, h]
    have hdep2 : (db.deployments.map
        (fun d => if d.deployment_id == ex.deployment_id then
          { d with vehicle_id := some v1.vehicle_id, driver_id := some dr1.driver_id }
        else d)).find? (fun d => d.trip_id == trip.trip_id) =
        some ⟨ex.deployment_id, ex.trip_id, some v1.vehicle_id, some dr1.driver_id⟩ := by
      rw [List.find?_map, hcomp1, hdep]
      simp
    have e2 := assign_update_eq
      { db with
        deployments := db.deployments.map
          (fun d => if d.deployment_id == ex.deployment_id then
            { d with vehicle_id := some v1.vehicle_id, driver_id := some dr1.driver_id }
          else d) }
      tn p2 d2 trip v2 dr2
      (⟨ex.deployment_id, ex.trip_id, some v1.vehicle_id, some dr1.driver_id⟩ : DeploymentRow)
      ht hv2 hd2 hdep2
    have e2' : (assign_vehicle_and_driver (assign_vehicle_and_driver db tn p1 d1).2 tn p2 d2).2 =
        { db with
          deployments := db.deployments.map
            ((fun d : DeploymentRow => if d.deployment_id == ex.deployment_id then
              { d with vehicle_id := some v2.vehicle_id, driver_id := some dr2.driver_id }
            else d) ∘
            (fun d : DeploymentRow => if d.deployment_id == ex.deployment_id then
              { d with vehicle_id := some v1.vehicle_id, driver_id := some dr1.driver_id }
            else d)) } := by
      rw [e1', e2]
      simp [List.map_map]
    have hcomp2 : ((fun d : DeploymentRow => d.trip_id == trip.trip_id) ∘
        ((fun d : DeploymentRow => if d.deployment_id == ex.deployment_id then
          { d with vehicle_id := some v2.vehicle_id, driver_id := some dr2.driver_id }
        else d) ∘
        (fun d : DeploymentRow => if d.deployment_id == ex.deployment_id then
          { d with vehicle_id := some v1.vehicle_id, driver_id := some dr1.driver_id }
        else d))) = (fun d : DeploymentRow => d.trip_id == trip.trip_id) := by
      funext d
      by_cases h : (d.deployment_id == ex.deployment_id) <;> simp [Function.comp, h]
    have hsing : db.deployments.filter (fun d => d.trip_id == trip.trip_id) = [ex] :=
      filter_singleton_of_find? _ db.deployments ex hdep (huniq trip.trip_id)
    refine ⟨⟨ex.deployment_id, ex.trip_id, some v2.vehicle_id, some dr2.driver_id⟩, ?_, rfl, rfl, ?_⟩
    · rw [e2']
      show (db.deployments.map _).filter (fun d : DeploymentRow => d.trip_id == trip.trip_id) = _
      rw [List.filter_map, hcomp2, hsing]
      simp [Function.comp]
    · intro tid
      rw [e2']
      show ((db.deployments.map _).filter (fun d : DeploymentRow => d.trip_id == tid)).length ≤ 1
      rw [List.filter_map, List.length_map]
      have hcomp3 : ((fun d : DeploymentRow => d.trip_id == tid) ∘
          ((fun d : DeploymentRow => if d.deployment_id == ex.deployment_id then
            { d with vehicle_id := some v2.vehicle_id, driver_id := some dr2.driver_id }
          else d) ∘
          (fun d : DeploymentRow => if d.deployment_id == ex.deployment_id then
            { d with vehicle_id := some v1.vehicle_id, driver_id := some dr1.driver_id }
          else d))) = (fun d : DeploymentRow => d.trip_id == tid) := by
        funext d
        by_cases h : (d.deployment_id == ex.deployment_id) <;> simp [Function.comp, h]
      rw [hcomp3]
      exact huniq tid

/-- Witness for C6 on the concrete database: trip `T2` (id 2, initially
undeployed) is assigned `KA-01`/`Amit` and then `KA-02`/`Rahul`; one
deployment row remains, carrying the second vehicle and driver. -/
theorem deployment_unique_last_write_wins_witness :
    ∃ dep : DeploymentRow,
      ((assign_vehicle_and_driver (assign_vehicle_and_driver wdb "T2" "KA-01" "Amit").2
          "T2" "KA-02" "Rahul").2).deployments.filter (fun d => d.trip_id == 2) = [dep] ∧
      dep.vehicle_id = some 2 ∧ dep.driver_id = some 2 ∧
      ∀ tid : Nat,
        ((((assign_vehicle_and_driver (assign_vehicle_and_driver wdb "T2" "KA-01" "Amit").2
            "T2" "KA-02" "Rahul").2).deployments.filter
          (fun d => d.trip_id == tid)).length ≤ 1) :=
  deployment_unique_last_write_wins wdb "T2" "KA-01" "KA-02" "Amit" "Rahul"
    ⟨2, 1, "T2", some 0, none⟩ ⟨1, "KA-01", "Bus", 40⟩ ⟨2, "KA-02", "Cab", 4⟩
    ⟨1, "Amit", none⟩ ⟨2, "Rahul", none⟩ rfl rfl rfl rfl rfl (by decide)
    (by
      intro tid
      show (List.filter (fun d => d.trip_id == tid)
        ([⟨1, 1, some 1, some 1⟩, ⟨2, 3, some 2, some 2⟩] : List DeploymentRow)).length ≤ 1
      by_cases h1 : ((1 : Nat) == tid) <;> by_cases h2 : ((3 : Nat) == tid)
      · exact absurd ((eq_of_beq h1).trans (eq_of_beq h2).symm) (by decide)
      · simp [List.filter, h1, h2]
      · simp [List.filter, h1, h2]
      · simp [List.filter, h1, h2])
    (by decide)

/-! ## C5: creation is idempotent by uniqueness -/

theorem addStopsToPath_frame (pid : Nat) :
    ∀ (ns : List String) (seq : Nat) (db : DB),
      (addStopsToPath pid ns seq db).paths = db.paths ∧
      (addStopsToPath pid ns seq db).routes = db.routes ∧
      (addStopsToPath pid ns seq db).vehicles = db.vehicles ∧
      (addStopsToPath pid ns seq db).drivers = db.drivers ∧
      (addStopsToPath pid ns seq db).daily_trips = db.daily_trips ∧
      (addStopsToPath pid ns seq db).deployments = db.deployments ∧
      (addStopsToPath pid ns seq db).next_path_id = db.next_path_id ∧
      (addStopsToPath pid ns seq db).next_route_id = db.next_route_id
  | [], _, _ => ⟨rfl, rfl, rfl, rfl, rfl, rfl, rfl, rfl⟩
  | s :: rest, seq, db => by
    rw [addStopsToPath]
    cases h : db.stops.find? (fun t => t.name == s) with
    | some st => simpa using addStopsToPath_frame pid rest (seq + 1) _
    | none => simpa using addStopsToPath_frame pid rest (seq + 1) _

/-- The ordered-stop-names query only looks at `path_stops` and `stops`,
so changing the routes table leaves it unchanged. -/
theorem stopNames_routes_invariant (db : DB) (rs : List RouteRow) (nid pid : Nat) :
    stopNamesForPathId { db with routes := rs, next_route_id := nid } pid =
      stopNamesForPathId db pid := rfl

theorem create_stop_created (db : DB) (sname : String) (lat lon : Option Rat)
    (hany : (db.stops.any (fun s => s.name == sname)) = false) :
    create_stop db sname lat lon =
      ("Created new stop '" ++ sname ++ "'.",
       { db with
         stops := db.stops ++ [⟨db.next_stop_id, sname, lat, lon⟩]
         next_stop_id := db.next_stop_id + 1 }) := by
  unfold create_stop
  rw [hany]
  simp

theorem create_stop_already (db : DB) (sname : String) (lat lon : Option Rat)
    (hany : (db.stops.any (fun s => s.name == sname)) = true) :
    create_stop db sname lat lon = ("Stop '" ++ sname ++ "' already exists.", db) := by
  unfold create_stop
  rw [hany]
  simp

theorem create_path_created (db : DB) (pn : String) (ns : List String)
    (hemp : ns.isEmpty = false)
    (hany : (db.paths.any (fun q => q.path_name == pn)) = false) :
    create_path db pn ns =
      ("Created path '" ++ pn ++ "' with stops: " ++ joinSep " → " ns,
       addStopsToPath db.next_path_id ns 1
         { db with
           paths := db.paths ++ [⟨db.next_path_id, pn⟩]
           next_path_id := db.next_path_id + 1 }) := by
  unfold create_path
  rw [hemp, hany]
  simp

theorem create_path_already (db : DB) (pn : String) (ns : List String)
    (hemp : ns.isEmpty = false)
    (hany : (db.paths.any (fun q => q.path_name == pn)) = true) :
    create_path db pn ns = ("Path '" ++ pn ++ "' already exists.", db) := by
  unfold create_path
  rw [hemp, hany]
  simp

theorem create_route_created (db : DB) (rn shift dir : String)
    (p : PathRow) (s0 : String) (srest : List String)
    (hp : db.paths.find? (fun q => q.path_name == rn) = some p)
    (hs : stopNamesForPathId db p.path_id = s0 :: srest)
    (hany : (db.routes.any
      (fun r => r.route_display_name == rn ++ " - " ++ shift)) = false) :
    create_route db rn shift dir =
      ("Created route '" ++ (rn ++ " - " ++ shift) ++ "' (" ++ dir ++ ") from " ++
         s0 ++ " to " ++ (s0 :: srest).getLast (by simp) ++ ".",
       { db with
         routes := db.routes ++
           [⟨db.next_route_id, p.path_id, rn ++ " - " ++ shift, shift, dir, s0,
             (s0 :: srest).getLast (by simp), "active"⟩]
         next_route_id := db.next_route_id + 1 }) := by
  simp only [create_route, hp, hs]
  rw [hany]
  simp

theorem create_route_already (db : DB) (rn shift dir : String)
    (p : PathRow) (s0 : String) (srest : List String)
    (hp : db.paths.find? (fun q => q.path_name == rn) = some p)
    (hs : stopNamesForPathId db p.path_id = s0 :: srest)
    (hany : (db.routes.any
      (fun r => r.route_display_name == rn ++ " - " ++ shift)) = true) :
    create_route db rn shift dir =
      ("Route '" ++ (rn ++ " - " ++ shift) ++ "' already exists.", db) := by
  simp only [create_route, hp, hs]
  rw [hany]
  simp

/-- **C5.** Creation is idempotent by uniqueness: re-creating a stop, a
path, or a route (whose display name derives as `path_name - shift_time`)
with an already-taken name answers "already exists", mutates nothing, and
leaves exactly one stored entity carrying that name. -/
theorem creation_idempotent
    (db : DB) (sname pn rn shift dir dir2 : String)
    (lat lon lat2 lon2 : Option Rat) (ns ns2 : List String)
    (hsf : ∀ s ∈ db.stops, s.name ≠ sname)
    (hpf : ∀ p ∈ db.paths, p.path_name ≠ pn)
    (hns : ns ≠ []) (hns2 : ns2 ≠ [])
    (p : PathRow) (s0 : String) (srest : List String)
    (hp : db.paths.find? (fun q => q.path_name == rn) = some p)
    (hs : stopNamesForPathId db p.path_id = s0 :: srest)
    (hrf : ∀ r ∈ db.routes, r.route_display_name ≠ rn ++ " - " ++ shift) :
    (create_stop (create_stop db sname lat lon).2 sname lat2 lon2 =
       ("Stop '" ++ sname ++ "' already exists.", (create_stop db sname lat lon).2) ∧
     ((create_stop db sname lat lon).2.stops.filter (fun s => s.name == sname)).length = 1) ∧
    (create_path (create_path db pn ns).2 pn ns2 =
       ("Path '" ++ pn ++ "' already exists.", (create_path db pn ns).2) ∧
     ((create_path db pn ns).2.paths.filter (fun q => q.path_name == pn)).length = 1) ∧
    (create_route (create_route db rn shift dir).2 rn shift dir2 =
       ("Route '" ++ (rn ++ " - " ++ shift) ++ "' already exists.",
        (create_route db rn shift dir).2) ∧
     ((create_route db rn shift dir).2.routes.filter
        (fun r => r.route_display_name == rn ++ " - " ++ shift)).length = 1) := by
  refine ⟨?_, ?_, ?_⟩
  · -- stops
    have hany : (db.stops.any (fun s => s.name == sname)) = false := by
      rw [List.any_eq_false]
      intro s hsm
      simp [hsf s hsm]
    have hfil : db.stops.filter (fun s => s.name == sname) = [] := by
      rw [List.filter_eq_nil_iff]
      intro s hsm
      simp [hsf s hsm]
    have e1 : (create_stop db sname lat lon).2 =
        { db with
          stops := db.stops ++ [⟨db.next_stop_id, sname, lat, lon⟩]
          next_stop_id := db.next_stop_id + 1 } := by
      rw [create_stop_created db sname lat lon hany]
    have hstops : (create_stop db sname lat lon).2.stops =
        db.stops ++ [⟨db.next_stop_id, sname, lat, lon⟩] := by
      rw [e1]
    have hany2 : ((create_stop db sname lat lon).2.stops.any
        (fun s => s.name == sname)) = true := by
      rw [hstops, List.any_append]
      simp
    refine ⟨create_stop_already _ sname lat2 lon2 hany2, ?_⟩
    rw [hstops, List.filter_append, hfil]
    simp
  · -- paths
    have hany : (db.paths.any (fun q => q.path_name == pn)) = false := by
      rw [List.any_eq_false]
      intro q hqm
      simp [hpf q hqm]
    have hfil : db.paths.filter (fun q => q.path_name == pn) = [] := by
      rw [List.filter_eq_nil_iff]
      intro q hqm
      simp [hpf q hqm]
    have hemp : ns.isEmpty = false := by
      cases ns with
      | nil => exact absurd rfl hns
      | cons a t => rfl
    have hemp2 : ns2.isEmpty = false := by
      cases ns2 with
      | nil => exact absurd rfl hns2
      | cons a t => rfl
    have hpaths : (create_path db pn ns).2.paths = db.paths ++ [⟨db.next_path_id, pn⟩] := by
      rw [create_path_created db pn ns hemp hany]
      exact (addStopsToPath_frame db.next_path_id ns 1 _).1
    have hany2 : ((create_path db pn ns).2.paths.any (fun q => q.path_name == pn)) = true := by
      rw [hpaths, List.any_append]
      simp
    refine ⟨create_path_already _ pn ns2 hemp2 hany2, ?_⟩
    rw [hpaths, List.filter_append, hfil]
    simp
  · -- routes
    have hrany : (db.routes.any
        (fun r => r.route_display_name == rn ++ " - " ++ shift)) = false := by
      rw [List.any_eq_false]
      intro r hrm
      simp [hrf r hrm]
    have hrfil : db.routes.filter
        (fun r => r.route_display_name == rn ++ " - " ++ shift) = [] := by
      rw [List.filter_eq_nil_iff]
      intro r hrm
      simp [hrf r hrm]
    have e1 : (create_route db rn shift dir).2 =
        { db with
          routes := db.routes ++
            [⟨db.next_route_id, p.path_id, rn ++ " - " ++ shift, shift, dir, s0,
              (s0 :: srest).getLast (by simp), "active"⟩]
          next_route_id := db.next_route_id + 1 } := by
      rw [create_route_created db rn shift dir p s0 srest hp hs hrany]
    have hroutes : (create_route db rn shift dir).2.routes =
        db.routes ++
          [⟨db.next_route_id, p.path_id, rn ++ " - " ++ shift, shift, dir, s0,
            (s0 :: srest).getLast (by simp), "active"⟩] := by
      rw [e1]
    have hp2 : (create_route db rn shift dir).2.paths.find?
        (fun q => q.path_name == rn) = some p := by
      rw [e1]
      exact hp
    have hs2 : stopNamesForPathId (create_route db rn shift dir).2 p.path_id =
        s0 :: srest := by
      rw [e1, stopNames_routes_invariant]
      exact hs
    have hany2 : ((create_route db rn shift dir).2.routes.any
        (fun r => r.route_display_name == rn ++ " - " ++ shift)) = true := by
      rw [hroutes, List.any_append]
      simp
    refine ⟨create_route_already _ rn shift dir2 p s0 srest hp2 hs2 hany2, ?_⟩
    rw [hroutes, List.filter_append, hrfil]
    simp

/-- Witness for C5 on the concrete database: a fresh stop `X1`, a fresh
path `NewPath` over the existing stop `A0`, and a fresh route
`P0 - 09:00` are each created once and rejected as already existing on the
second call, with exactly one stored row each. -/
theorem creation_idempotent_witness :
    (create_stop (create_stop wdb "X1" none none).2 "X1" none none =
       ("Stop '" ++ "X1" ++ "' already exists.", (create_stop wdb "X1" none none).2) ∧
     ((create_stop wdb "X1" none none).2.stops.filter (fun s => s.name == "X1")).length = 1) ∧
    (create_path (create_path wdb "NewPath" ["A0"]).2 "NewPath" ["A0"] =
       ("Path '" ++ "NewPath" ++ "' already exists.", (create_path wdb "NewPath" ["A0"]).2) ∧
     ((create_path wdb "NewPath" ["A0"]).2.paths.filter
        (fun q => q.path_name == "NewPath")).length = 1) ∧
    (create_route (create_route wdb "P0" "09:00" "IN").2 "P0" "09:00" "OUT" =
       ("Route '" ++ ("P0" ++ " - " ++ "09:00") ++ "' already exists.",
        (create_route wdb "P0" "09:00" "IN").2) ∧
     ((create_route wdb "P0" "09:00" "IN").2.routes.filter
        (fun r => r.route_display_name == "P0" ++ " - " ++ "09:00")).length = 1) :=
  creation_idempotent wdb "X1" "NewPath" "P0" "09:00" "IN" "OUT" none none none none
    ["A0"] ["A0"] (by decide) (by decide) (by decide) (by decide)
    ⟨1, "P0"⟩ "A0" [] rfl rfl (by decide)

/-! ## C10: created routes are active and listed -/

theorem mem_insertOrdered {α : Type} (le : α → α → Bool) (x a : α) (l : List α) :
    a ∈ insertOrdered le x l ↔ a = x ∨ a ∈ l := by
  induction l with
  | nil => simp [insertOrdered]
  | cons y ys ih =>
    rw [insertOrdered]
    split
    · simp [List.mem_cons]
    · rw [List.mem_cons, ih, List.mem_cons]
      tauto

theorem mem_orderBy {α : Type} (le : α → α → Bool) (a : α) (l : List α) :
    a ∈ orderBy le l ↔ a ∈ l := by
  induction l with
  | nil => simp [orderBy]
  | cons x xs ih =>
    rw [orderBy, mem_insertOrdered, ih, List.mem_cons]

theorem joinSep_contains {sep : String} {l : List String} {x : String} (h : x ∈ l) :
    ContainsSub (joinSep sep l) x := by
  induction l with
  | nil => simp at h
  | cons y ys ih =>
    cases ys with
    | nil =>
      rw [List.mem_singleton] at h
      subst h
      exact ⟨"", "", by apply String.ext; simp [joinSep]⟩
    | cons z zs =>
      rw [joinSep]
      rcases List.mem_cons.mp h with rfl | hmem
      · exact ⟨"", sep ++ joinSep sep (z :: zs), by apply String.ext; simp⟩
      · exact containsSub_appendLeft _ (ih hmem)

/-- **C10.** A successfully created route is stored with status `active`
and therefore shows up in the output of the list-active-routes operation:
its formatted line is among the produced lines and occurs inside the
returned text. -/
theorem create_route_active_and_listed
    (db : DB) (rn shift dir : String) (p : PathRow) (s0 : String) (srest : List String)
    (hp : db.paths.find? (fun q => q.path_name == rn) = some p)
    (hs : stopNamesForPathId db p.path_id = s0 :: srest)
    (hrany : (db.routes.any
      (fun r => r.route_display_name == rn ++ " - " ++ shift)) = false) :
    ∃ r : RouteRow,
      (create_route db rn shift dir).2.routes = db.routes ++ [r] ∧
      r.status = "active" ∧
      fmtActiveRoute r ∈ activeRouteLines (create_route db rn shift dir).2 ∧
      ContainsSub (list_active_routes (create_route db rn shift dir).2) (fmtActiveRoute r) := by
  have e1 : (create_route db rn shift dir).2 =
      { db with
        routes := db.routes ++
          [⟨db.next_route_id, p.path_id, rn ++ " - " ++ shift, shift, dir, s0,
            (s0 :: srest).getLast (by simp), "active"⟩]
        next_route_id := db.next_route_id + 1 } := by
    rw [create_route_created db rn shift dir p s0 srest hp hs hrany]
  refine ⟨⟨db.next_route_id, p.path_id, rn ++ " - " ++ shift, shift, dir, s0,
    (s0 :: srest).getLast (by simp), "active"⟩, by rw [e1], rfl, ?_, ?_⟩
  · unfold activeRouteLines
    apply List.mem_map_of_mem
    rw [e1]
    unfold activeRouteRows
    rw [mem_orderBy]
    simp [List.mem_filter]
  · have hmem : (⟨db.next_route_id, p.path_id, rn ++ " - " ++ shift, shift, dir, s0,
        (s0 :: srest).getLast (by simp), "active"⟩ : RouteRow) ∈
        activeRouteRows (create_route db rn shift dir).2 := by
      rw [e1]
      unfold activeRouteRows
      rw [mem_orderBy]
      simp [List.mem_filter]
    have hline : fmtActiveRoute ⟨db.next_route_id, p.path_id, rn ++ " - " ++ shift, shift,
        dir, s0, (s0 :: srest).getLast (by simp), "active"⟩ ∈
        activeRouteLines (create_route db rn shift dir).2 :=
      List.mem_map_of_mem _ hmem
    have hne : (activeRouteRows (create_route db rn shift dir).2).isEmpty = false := by
      cases hrows : activeRouteRows (create_route db rn shift dir).2 with
      | nil => rw [hrows] at hmem; simp at hmem
      | cons a t => rfl
    unfold list_active_routes
    rw [hne]
    simp only [Bool.false_eq_true, if_false]
    exact containsSub_appendLeft _ (joinSep_contains hline)

/-- Witness for C10 on the concrete database: the route `P0 - 09:00` is
created active and its line occurs in the list-active-routes output. -/
theorem create_route_active_and_listed_witness :
    ∃ r : RouteRow,
      (create_route wdb "P0" "09:00" "IN").2.routes = wdb.routes ++ [r] ∧
      r.status = "active" ∧
      fmtActiveRoute r ∈ activeRouteLines (create_route wdb "P0" "09:00" "IN").2 ∧
      ContainsSub (list_active_routes (create_route wdb "P0" "09:00" "IN").2)
        (fmtActiveRoute r) :=
  create_route_active_and_listed wdb "P0" "09:00" "IN" ⟨1, "P0"⟩ "A0" [] rfl rfl (by decide)

/-! ## C7: stop order round-trips through path creation -/

/-- Well-formedness of the stops table: distinct ids, all below the
AUTOINCREMENT counter. -/
def StopIdsOK (db : DB) : Prop :=
  (db.stops.map (fun s => s.stop_id)).Nodup ∧ ∀ s ∈ db.stops, s.stop_id < db.next_stop_id

theorem find?_by_id_of_nodup (stops : List StopRow) (st : StopRow)
    (hnodup : (stops.map (fun s => s.stop_id)).Nodup) (hmem : st ∈ stops) :
    stops.find? (fun s => s.stop_id == st.stop_id) = some st := by
  induction stops with
  | nil => simp at hmem
  | cons x t ih =>
    rw [List.map_cons, List.nodup_cons] at hnodup
    rcases List.mem_cons.mp hmem with rfl | hm
    · rw [List.find?_cons_of_pos _ (by simp)]
    · have hx : (x.stop_id == st.stop_id) = false := by
        simp only [beq_eq_false_iff_ne]
        intro heq
        exact hnodup.1 (heq ▸ List.mem_map_of_mem (fun s => s.stop_id) hm)
      rw [List.find?_cons_of_neg _ (by simp [hx])]
      exact ih hnodup.2 hm

theorem find?_fresh_id (stops : List StopRow) (nid : Nat)
    (hall : ∀ s ∈ stops, s.stop_id < nid) :
    stops.find? (fun s => s.stop_id == nid) = none := by
  rw [List.find?_eq_none]
  intro s hs
  simp [Nat.ne_of_lt (hall s hs)]

theorem filterMap_eq_of_map_some {α β : Type} (f : α → Option β) :
    ∀ (l : List α) (ys : List β), l.map f = ys.map some → l.filterMap f = ys
  | [], [], _ => rfl
  | [], _ :: _, h => by simp at h
  | _ :: _, [], h => by simp at h
  | x :: t, y :: yt, h => by
    rw [List.map_cons, List.map_cons] at h
    have h1 : f x = some y := (List.cons.injEq _ _ _ _ ▸ h).1
    have h2 : t.map f = yt.map some := (List.cons.injEq _ _ _ _ ▸ h).2
    rw [List.filterMap_cons, h1]
    rw [filterMap_eq_of_map_some f t yt h2]

/-- The core invariant of the `create_path` stop loop: it appends
`path_stops` rows that carry the new path id and the consecutive sequence
numbers `seq, seq+1, …`, resolving (in the final stops table) to exactly
the requested names in order; it only ever appends to the stops table and
preserves its well-formedness. -/
theorem addStopsToPath_spec (pid : Nat) :
    ∀ (ns : List String) (seq : Nat) (db : DB), StopIdsOK db →
    ∃ dp : List PathStopRow,
      (addStopsToPath pid ns seq db).path_stops = db.path_stops ++ dp ∧
      dp.map (fun ps => ps.path_id) = List.replicate ns.length pid ∧
      dp.map (fun ps => ps.seq) = List.range' seq ns.length ∧
      dp.map (fun ps => ((addStopsToPath pid ns seq db).stops.find?
        (fun s => s.stop_id == ps.stop_id)).map (fun s => s.name)) = ns.map some ∧
      (∃ ds, (addStopsToPath pid ns seq db).stops = db.stops ++ ds) ∧
      StopIdsOK (addStopsToPath pid ns seq db)
  | [], seq, db, hok =>
    ⟨[], by simp [addStopsToPath], rfl, rfl, rfl, ⟨[], by simp [addStopsToPath]⟩, hok⟩
  | n :: rest, seq, db, hok => by
    rw [addStopsToPath]
    cases hfind : db.stops.find? (fun s => s.name == n) with
    | some st =>
      have hok1 : StopIdsOK
          { db with
            path_stops := db.path_stops ++ [⟨db.next_path_stop_id, pid, st.stop_id, seq⟩]
            next_path_stop_id := db.next_path_stop_id + 1 } := hok
      obtain ⟨dp, h1, h2, h3, h4, ⟨ds, h5⟩, h6⟩ := addStopsToPath_spec pid rest (seq + 1) _ hok1
      refine ⟨⟨db.next_path_stop_id, pid, st.stop_id, seq⟩ :: dp, ?_, ?_, ?_, ?_, ⟨ds, ?_⟩, h6⟩
      · rw [h1]
        simp
      · simp only [List.map_cons, h2, List.length_cons]
        rfl
      · simp only [List.map_cons, h3, List.length_cons]
        rw [List.range'_succ]
      · simp only [List.map_cons, h4, List.map_cons]
        congr 1
        have hstops : (addStopsToPath pid rest (seq + 1)
            { db with
              path_stops := db.path_stops ++ [⟨db.next_path_stop_id, pid, st.stop_id, seq⟩]
              next_path_stop_id := db.next_path_stop_id + 1 }).stops = db.stops ++ ds := h5
        rw [hstops, List.find?_append, find?_by_id_of_nodup db.stops st hok.1
          (List.mem_of_find?_eq_some hfind)]
        have hb := List.find?_some hfind
        have : st.name = n := eq_of_beq (by simpa using hb)
        simp [this]
      · exact h5
    | none =>
      have hok1 : StopIdsOK
          { db with
            stops := db.stops ++ [⟨db.next_stop_id, n, none, none⟩]
            next_stop_id := db.next_stop_id + 1
            path_stops := db.path_stops ++ [⟨db.next_path_stop_id, pid, db.next_stop_id, seq⟩]
            next_path_stop_id := db.next_path_stop_id + 1 } := by
        constructor
        · show ((db.stops ++ [(⟨db.next_stop_id, n, none, none⟩ : StopRow)]).map
            (fun s => s.stop_id)).Nodup
          rw [List.map_append, List.nodup_append]
          refine ⟨hok.1, by simp, ?_⟩
          intro a ha hb
          obtain ⟨s, hs, rfl⟩ := List.mem_map.mp ha
          simp only [List.map_cons, List.map_nil, List.mem_singleton] at hb
          exact absurd (hb ▸ hok.2 s hs) (by simp)
        · intro s hs
          show s.stop_id < db.next_stop_id + 1
          rcases List.mem_append.mp hs with h | h
          · exact Nat.lt_succ_of_lt (hok.2 s h)
          · rw [List.mem_singleton] at h
            rw [h]
            exact Nat.lt_succ_self _
      obtain ⟨dp, h1, h2, h3, h4, ⟨ds, h5⟩, h6⟩ := addStopsToPath_spec pid rest (seq + 1) _ hok1
      refine ⟨⟨db.next_path_stop_id, pid, db.next_stop_id, seq⟩ :: dp, ?_, ?_, ?_, ?_,
        ⟨⟨db.next_stop_id, n, none, none⟩ :: ds, ?_⟩, h6⟩
      · rw [h1]
        simp
      · simp only [List.map_cons, h2, List.length_cons]
        rfl
      · simp only [List.map_cons, h3, List.length_cons]
        rw [List.range'_succ]
      · simp only [List.map_cons, h4, List.map_cons]
        congr 1
        have hstops : (addStopsToPath pid rest (seq + 1)
            { db with
              stops := db.stops ++ [⟨db.next_stop_id, n, none, none⟩]
              next_stop_id := db.next_stop_id + 1
              path_stops := db.path_stops ++ [⟨db.next_path_stop_id, pid, db.next_stop_id, seq⟩]
              next_path_stop_id := db.next_path_stop_id + 1 }).stops =
            (db.stops ++ [⟨db.next_stop_id, n, none, none⟩]) ++ ds := h5
        rw [hstops, List.append_assoc, List.find?_append,
          find?_fresh_id db.stops db.next_stop_id hok.2]
        simp
      · rw [h5]
        simp
  termination_by ns => ns.length

/-- **C7.** Stop order round-trips: creating a path with the ordered stop
list `[A, B, C]` (in a well-formed database where the path name is fresh)
succeeds, `list_stops_for_path` then renders exactly
`Stops on P: A → B → C`, and a route subsequently created on that path is
stored with start point `A` and end point `C`. -/
theorem path_stop_order_roundtrip
    (db : DB) (P A B C shift dir : String)
    (hok : StopIdsOK db)
    (hpsid : ∀ ps ∈ db.path_stops, ps.path_id < db.next_path_id)
    (hfresh : ∀ p ∈ db.paths, p.path_name ≠ P)
    (hroute : ∀ r ∈ db.routes, r.route_display_name ≠ P ++ " - " ++ shift) :
    (create_path db P [A, B, C]).1 =
      "Created path '" ++ P ++ "' with stops: " ++ A ++ " → " ++ B ++ " → " ++ C ∧
    list_stops_for_path (create_path db P [A, B, C]).2 P =
      "Stops on " ++ P ++ ": " ++ A ++ " → " ++ B ++ " → " ++ C ∧
    ∃ r : RouteRow,
      (create_route (create_path db P [A, B, C]).2 P shift dir).2.routes =
        (create_path db P [A, B, C]).2.routes ++ [r] ∧
      r.start_point = A ∧ r.end_point = C := by
  have hemp : ([A, B, C] : List String).isEmpty = false := rfl
  have hany : (db.paths.any (fun q => q.path_name == P)) = false := by
    rw [List.any_eq_false]
    intro q hq
    simp [hfresh q hq]
  have e1 := create_path_created db P [A, B, C] hemp hany
  have e1' : (create_path db P [A, B, C]).2 =
      addStopsToPath db.next_path_id [A, B, C] 1
        { db with
          paths := db.paths ++ [⟨db.next_path_id, P⟩]
          next_path_id := db.next_path_id + 1 } := by
    rw [e1]
  have hok1 : StopIdsOK
      { db with
        paths := db.paths ++ [⟨db.next_path_id, P⟩]
        next_path_id := db.next_path_id + 1 } := hok
  obtain ⟨dp, h1, h2, h3, h4, ⟨ds, h5⟩, h6⟩ :=
    addStopsToPath_spec db.next_path_id [A, B, C] 1 _ hok1
  have hlen : dp.length = 3 := by
    have := congrArg List.length h2
    simpa using this
  rcases dp with _ | ⟨p1, dp⟩
  · simp at hlen
  rcases dp with _ | ⟨p2, dp⟩
  · simp at hlen
  rcases dp with _ | ⟨p3, dp⟩
  · simp at hlen
  have hnil : dp = [] := by
    rw [← List.length_eq_zero]
    simpa using hlen
  subst hnil
  simp only [List.map_cons, List.map_nil] at h2 h3 h4
  have hpid1 : p1.path_id = db.next_path_id := by
    have := congrArg (fun l => l.get? 0) h2
    simpa using this
  have hpid2 : p2.path_id = db.next_path_id := by
    have := congrArg (fun l => l.get? 1) h2
    simpa using this
  have hpid3 : p3.path_id = db.next_path_id := by
    have := congrArg (fun l => l.get? 2) h2
    simpa using this
  have hseq1 : p1.seq = 1 := by
    have := congrArg (fun l => l.get? 0) h3
    simpa using this
  have hseq2 : p2.seq = 2 := by
    have := congrArg (fun l => l.get? 1) h3
    simpa using this
  have hseq3 : p3.seq = 3 := by
    have := congrArg (fun l => l.get? 2) h3
    simpa using this
  have hfindnone : db.paths.find? (fun q => q.path_name == P) = none := by
    rw [List.find?_eq_none]
    intro q hq
    simp [hfresh q hq]
  have hframe := addStopsToPath_frame db.next_path_id [A, B, C] 1
    { db with
      paths := db.paths ++ [⟨db.next_path_id, P⟩]
      next_path_id := db.next_path_id + 1 }
  have hpaths : (addStopsToPath db.next_path_id [A, B, C] 1
      { db with
        paths := db.paths ++ [⟨db.next_path_id, P⟩]
        next_path_id := db.next_path_id + 1 }).paths =
      db.paths ++ [⟨db.next_path_id, P⟩] := hframe.1
  have hroutes2 : (addStopsToPath db.next_path_id [A, B, C] 1
      { db with
        paths := db.paths ++ [⟨db.next_path_id, P⟩]
        next_path_id := db.next_path_id + 1 }).routes = db.routes := hframe.2.1
  have hfind : (addStopsToPath db.next_path_id [A, B, C] 1
      { db with
        paths := db.paths ++ [⟨db.next_path_id, P⟩]
        next_path_id := db.next_path_id + 1 }).paths.find?
        (fun q => q.path_name == P) = some ⟨db.next_path_id, P⟩ := by
    rw [hpaths, List.find?_append, hfindnone]
    simp
  have hstopnames : stopNamesForPathId
      (addStopsToPath db.next_path_id [A, B, C] 1
        { db with
          paths := db.paths ++ [⟨db.next_path_id, P⟩]
          next_path_id := db.next_path_id + 1 }) db.next_path_id = [A, B, C] := by
    unfold stopNamesForPathId
    have hps : (addStopsToPath db.next_path_id [A, B, C] 1
        { db with
          paths := db.paths ++ [⟨db.next_path_id, P⟩]
          next_path_id := db.next_path_id + 1 }).path_stops =
        db.path_stops ++ [p1, p2, p3] := h1
    rw [hps, List.filter_append]
    have hfo : db.path_stops.filter (fun ps => ps.path_id == db.next_path_id) = [] := by
      rw [List.filter_eq_nil_iff]
      intro ps hps'
      simp [Nat.ne_of_lt (hpsid ps hps')]
    rw [hfo, List.filter_cons_of_pos (by simp [hpid1]),
      List.filter_cons_of_pos (by simp [hpid2]),
      List.filter_cons_of_pos (by simp [hpid3]), List.filter_nil, List.nil_append]
    have hord : orderBy (fun a b => decide (a.seq ≤ b.seq)) [p1, p2, p3] = [p1, p2, p3] := by
      simp [orderBy, insertOrdered, hseq1, hseq2, hseq3]
    rw [hord]
    exact filterMap_eq_of_map_some _ _ _ h4
  refine ⟨?_, ?_, ?_⟩
  · rw [e1]
    apply String.ext
    simp [joinSep]
  · rw [e1']
    simp only [list_stops_for_path, hfind, hstopnames, List.isEmpty_cons,
      Bool.false_eq_true, if_false]
    apply String.ext
    simp [joinSep]
  · have hrany : ((addStopsToPath db.next_path_id [A, B, C] 1
        { db with
          paths := db.paths ++ [⟨db.next_path_id, P⟩]
          next_path_id := db.next_path_id + 1 }).routes.any
        (fun r => r.route_display_name == P ++ " - " ++ shift)) = false := by
      rw [hroutes2, List.any_eq_false]
      intro r hr
      simp [hroute r hr]
    have hs2 : stopNamesForPathId
        (addStopsToPath db.next_path_id [A, B, C] 1
          { db with
            paths := db.paths ++ [⟨db.next_path_id, P⟩]
            next_path_id := db.next_path_id + 1 })
        ((⟨db.next_path_id, P⟩ : PathRow).path_id) = A :: [B, C] := hstopnames
    have e3 := create_route_created
      (addStopsToPath db.next_path_id [A, B, C] 1
        { db with
          paths := db.paths ++ [⟨db.next_path_id, P⟩]
          next_path_id := db.next_path_id + 1 })
      P shift dir ⟨db.next_path_id, P⟩ A [B, C] hfind hs2 hrany
    rw [e1', e3]
    exact ⟨_, rfl, rfl, rfl⟩

/-- Witness for C7 on the concrete database: the fresh path `NewPath` with
stops `[X, Y, Z]` lists as `X → Y → Z` and the derived route runs from `X`
to `Z`. -/
theorem path_stop_order_roundtrip_witness :
    (create_path wdb "NewPath" ["X", "Y", "Z"]).1 =
      "Created path '" ++ "NewPath" ++ "' with stops: " ++ "X" ++ " → " ++ "Y" ++ " → " ++ "Z" ∧
    list_stops_for_path (create_path wdb "NewPath" ["X", "Y", "Z"]).2 "NewPath" =
      "Stops on " ++ "NewPath" ++ ": " ++ "X" ++ " → " ++ "Y" ++ " → " ++ "Z" ∧
    ∃ r : RouteRow,
      (create_route (create_path wdb "NewPath" ["X", "Y", "Z"]).2 "NewPath" "10:00" "IN").2.routes =
        (create_path wdb "NewPath" ["X", "Y", "Z"]).2.routes ++ [r] ∧
      r.start_point = "X" ∧ r.end_point = "Z" :=
  path_stop_order_roundtrip wdb "NewPath" "X" "Y" "Z" "10:00" "IN"
    ⟨by decide, by decide⟩ (by decide) (by decide) (by decide)

end Movi
